import Mathlib

/-!
Shallow embedding of the Colmena transaction saga coordinator
(`services/TransactionService` and the `secure` request decorator) together
with models of the external collaborators it calls (object store, stock
ledger, permission grants, notifier, sequence generator), and proofs about
the six workflows: recover, transfer-request, transfer-accept,
transfer-reject, transfer-cancel and transport.

Modelling conventions:
* Parse objects are rows identified by a numeric id.  A mutation reaches
  the store only when an actual save happens: the explicit save on the
  object (`transaction.save`, the master-key saves of the rollback
  helpers), or Parse's dirty-children cascade -- saving a
  TransactionDetail also saves the dirty objects it points to (its
  container, the new transaction, and through `relatedTo` the request).
  In-memory `set` calls never followed by any such save (the terminal
  workflows' `expiredAt`/`relatedTo` on a request without details) are
  not persisted.
* Every row save is issued under a session credential: a genuine
  `user.getSessionToken()` is accepted, while a user object passed in the
  token position (the `registerTransferCancel` bug) makes the save reject
  with INVALID_SESSION_TOKEN.
* `Promise.all(xs.map(f))` is sequentialised left to right.  Inside such a
  map, status flips (`container.set('status', ...)`) execute synchronously
  for every element before any asynchronous save resolves, so the model
  flips every container first and then runs the per-container asynchronous
  steps in order, stopping at the first failure.
* Machine integers are `Nat`/`Int`; dates are `Nat` timestamps (only
  presence of `expiredAt` ever matters); auth scopes / session tokens are
  dropped (authentication is an external collaborator).
* External saves can fail; the only injectable failure point the claims
  need is the TransactionDetail save, driven by the `failDetailSave`
  oracle carried in the state.
-/

/-- Container lifecycle statuses (`CONTAINER_STATUS` in `constants`). -/
inductive ContainerStatus
  | RECOVERED
  | TRANSFER_PENDING
  | TRANSFERRED
  | IN_TRANSIT
  deriving DecidableEq, Repr

/-- Transaction types (`TRANSACTIONS_TYPES` in `constants`). -/
inductive TransactionType
  | RECOVER
  | TRANSFER_REQUEST
  | TRANSFER_ACCEPT
  | TRANSFER_REJECT
  | TRANSFER_CANCEL
  | TRANSPORT
  deriving DecidableEq, Repr

/-- A waste type record; `qty`/`unit` are the per-container quantity and
unit copied onto every TransactionDetail (`createTransactionDetail`). -/
structure WasteType where
  id : Nat
  qty : Nat
  unit : String
  deriving DecidableEq, Repr

/-- A Transaction row.  `type` is `Option` because JavaScript lets the
field be `undefined` (which actually happens in `registerTransferCancel`,
see below).  `fromU`/`toU` model the `from`/`to` fields (`from` is a Lean
keyword).  The `details` array is attached only to the in-memory object
returned to the caller, never stored as a row attribute, so it is not a
field here; workflows return it alongside the transaction. -/
structure Transaction where
  id : Nat
  type : Option TransactionType
  fromU : Option Nat
  toU : Option Nat
  number : Nat
  recyclingCenter : Option Nat
  reason : Option String
  relatedTo : Option Nat
  expiredAt : Option Nat
  deriving DecidableEq, Repr

/-- A TransactionDetail row (one per container touched by a transaction). -/
structure TransactionDetail where
  id : Nat
  transaction : Nat
  container : Nat
  qty : Nat
  unit : String
  deriving DecidableEq, Repr

/-- A Container row.  The waste-type pointer is stored inline (queries in
the source always `include` it). -/
structure Container where
  id : Nat
  type : WasteType
  status : ContainerStatus
  createdBy : Nat
  batchNumber : Nat
  deriving DecidableEq, Repr

/-- One line of the `registerRecover` input: a waste-type id and how many
containers of it to create. -/
structure ContainerInput where
  typeId : Nat
  qty : Nat
  deriving DecidableEq, Repr

/-- The attributes object destructured by `createTransaction`.  Every
field defaults to `none` exactly as the JavaScript destructuring defaults
`from`/`recyclingCenter` to `null` and leaves missing fields
`undefined`. -/
structure TransactionAttributes where
  fromU : Option Nat := none
  toU : Option Nat := none
  type : Option TransactionType := none
  recyclingCenter : Option Nat := none
  reason : Option String := none
  deriving DecidableEq, Repr

/-- What the code passes in the `sessionToken` position of a save: a real
session token obtained from `user.getSessionToken()`, or (by mistake, in
`registerTransferCancel`) a Parse.User object. -/
inductive SessionCredential
  | token (user : Nat)
  | userObject (user : Option Nat)
  deriving DecidableEq, Repr

/-- Errors thrown by the service, one constructor per `throw` site (plus
the Parse INVALID_SESSION_TOKEN rejection a save can surface). -/
inductive SagaError
  | transactionNotFound (id : Nat)
  | userNotFound (id : Nat)
  | recyclingCenterNotFound (id : Nat)
  | wasteTypeNotFound (id : Nat)
  | containerNotFound (id : Nat)
  | duplicateWasteType (typeId : Nat)
  | maxQuantityExceeded
  | missingRecipient
  | missingDestination
  | invalidContainerStatus
  | notTransferRequest (id : Nat)
  | transactionExpired (id : Nat)
  | notAllowedAcceptReject
  | notAllowedCancel
  | transportDenied (containerId : Nat)
  | typeErrorNullRef
  | typeErrorNotAFunction
  | invalidSessionToken
  | saveFailed
  | detailNotSaved (cause : SagaError)
  | couldNotRegister (cause : SagaError)
  deriving DecidableEq, Repr

/-- The world the saga coordinator acts on: the object store tables, the
external collaborators' state, and the environment oracles (clock,
transport authorization, injected save failures, configured maximum). -/
structure ColmenaState where
  seq : Nat
  nextId : Nat
  now : Nat
  transactions : List Transaction
  details : List TransactionDetail
  containers : List Container
  users : List Nat
  recyclingCenters : List Nat
  wasteTypes : List WasteType
  stock : Nat → Nat → Int
  grants : List (String × Nat × Nat)
  notifications : List (Nat × Nat × List Nat)
  canTransport : Nat → Nat → Bool
  failDetailSave : Nat → Bool
  maxContainersQuantityPerRequest : Nat

/-- Result of one workflow invocation: the returned transaction together
with its in-memory details, or the (wrapped) error, plus the post-state. -/
abbrev SagaResult := Except SagaError (Transaction × List TransactionDetail) × ColmenaState

/-- Did the workflow return successfully? -/
def sagaOk (r : SagaResult) : Bool :=
  match r.1 with
  | .ok _ => true
  | .error _ => false

/-- Store lookup of a transaction row by id (the query behind
`findRawTransaction`). -/
def findTransaction (s : ColmenaState) (id : Nat) : Option Transaction :=
  s.transactions.find? (fun t => t.id == id)

/-- `findRawTransaction`: wraps a failed lookup into a not-found error. -/
def findRawTransaction (s : ColmenaState) (id : Nat) : Except SagaError Transaction :=
  match findTransaction s id with
  | none => .error (.transactionNotFound id)
  | some t => .ok t

/-- Persisting a modified transaction object: every row with its id is
replaced by the new value. -/
def saveTransaction (s : ColmenaState) (t : Transaction) : ColmenaState :=
  { s with transactions := s.transactions.map (fun t0 => if t0.id == t.id then t else t0) }

/-- `destroyTransaction`: hard-deletes the row (used only as
compensation). -/
def destroyTransactionInState (s : ColmenaState) (txId : Nat) : ColmenaState :=
  { s with transactions := s.transactions.filter (fun t => t.id != txId) }

/-- Store lookup of a container row by id. -/
def findContainer (s : ColmenaState) (id : Nat) : Option Container :=
  s.containers.find? (fun c => c.id == id)

/-- `ContainerService.findContainerById` mapped over an id list
(`Promise.all(containersInput.map(...))`), failing on the first missing
container. -/
def findContainersByIds (s : ColmenaState) : List Nat → Except SagaError (List Container)
  | [] => .ok []
  | id :: rest =>
    match findContainer s id with
    | none => .error (.containerNotFound id)
    | some c => (findContainersByIds s rest).map (fun cs => c :: cs)

/-- Setting the status of every container whose id is listed.  This is the
net store effect both of the forward flips and of
`rollbackContainersToStatus`: status is the only container field the
service ever mutates, so saving a loaded object equals rewriting the
status of the row with that id. -/
def setContainersStatus (s : ColmenaState) (cids : List Nat) (st : ContainerStatus) : ColmenaState :=
  { s with containers :=
      s.containers.map (fun c => if cids.contains c.id then { c with status := st } else c) }

/-- `ContainerService.findContainersByTransaction`: the containers
referenced by the TransactionDetail rows of the given transaction. -/
def findContainersByTransaction (s : ColmenaState) (txId : Nat) : List Container :=
  (s.details.filter (fun d => d.transaction == txId)).filterMap
    (fun d => findContainer s d.container)

/-- Modelled from the spec: `getValueForNextSequence` (`utils/db`, not in
`src/`) returns the next value of a process-wide monotonic sequence. -/
def getValueForNextSequence (s : ColmenaState) : Nat × ColmenaState :=
  (s.seq, { s with seq := s.seq + 1 })

/-- `createTransaction`: destructures the attributes, draws a sequence
number (consumed even when the save later fails), then saves the fresh
row under the given session credential and returns the object.  A save
issued with a user object in the sessionToken position -- which is what
`registerTransferCancel`'s positional-argument bug does -- is rejected by
Parse with INVALID_SESSION_TOKEN, so `createTransaction` throws and no
row is stored. -/
def createTransaction (s : ColmenaState) (attrs : TransactionAttributes)
    (sessionToken : SessionCredential) : Except SagaError Transaction × ColmenaState :=
  let numberState := getValueForNextSequence s
  let t : Transaction :=
    { id := numberState.2.nextId
      type := attrs.type
      fromU := attrs.fromU
      toU := attrs.toU
      number := numberState.1
      recyclingCenter := attrs.recyclingCenter
      reason := attrs.reason
      relatedTo := none
      expiredAt := none }
  match sessionToken with
  | .token _ =>
    (.ok t, { numberState.2 with
                nextId := numberState.2.nextId + 1
                transactions := numberState.2.transactions ++ [t] })
  | .userObject _ => (.error .invalidSessionToken, numberState.2)

/-- The transaction a successful `createTransaction` builds for a given
pre-call state (named for the proofs below). -/
def newTransaction (s : ColmenaState) (attrs : TransactionAttributes) : Transaction :=
  { id := s.nextId, type := attrs.type, fromU := attrs.fromU, toU := attrs.toU,
    number := s.seq, recyclingCenter := attrs.recyclingCenter, reason := attrs.reason,
    relatedTo := none, expiredAt := none }

/-- The state after a successful `createTransaction` save. -/
def stateAfterCreate (s : ColmenaState) (attrs : TransactionAttributes) : ColmenaState :=
  { s with seq := s.seq + 1, nextId := s.nextId + 1,
           transactions := s.transactions ++ [newTransaction s attrs] }

/-- `createTransactionDetail`: copies `qty`/`unit` from the container's
waste type and saves the row; a failing save surfaces as the wrapped
"Transaction Detail could not be saved" error. -/
def createTransactionDetail (s : ColmenaState) (tx : Transaction) (c : Container) :
    Except SagaError (TransactionDetail × ColmenaState) :=
  if s.failDetailSave c.id then
    .error (.detailNotSaved .saveFailed)
  else
    let d : TransactionDetail :=
      { id := s.nextId
        transaction := tx.id
        container := c.id
        qty := c.type.qty
        unit := c.type.unit }
    .ok (d, { s with nextId := s.nextId + 1, details := s.details ++ [d] })

/-- Sequentialised `Promise.all(containers.map(c => createTransactionDetail ...))`. -/
def createDetailsForContainers (s : ColmenaState) (tx : Transaction) :
    List Container → Except SagaError (List TransactionDetail) × ColmenaState
  | [] => (.ok [], s)
  | c :: rest =>
    match createTransactionDetail s tx c with
    | .error e => (.error e, s)
    | .ok (d, s1) =>
      let tail := createDetailsForContainers s1 tx rest
      (tail.1.map (fun ds => d :: ds), tail.2)

/-- Modelled from the spec: `WasteTypeService.getWasteTypesFromIds` (not
in `src/`) resolves every requested waste-type id to its record, failing
when an id is unknown. -/
def getWasteTypesFromIds (s : ColmenaState) : List Nat → Except SagaError (List WasteType)
  | [] => .ok []
  | id :: rest =>
    match s.wasteTypes.find? (fun w => w.id == id) with
    | none => .error (.wasteTypeNotFound id)
    | some w => (getWasteTypesFromIds s rest).map (fun ws => w :: ws)

/-- Modelled from the spec: `StockService.incrementStock` (not in `src/`)
adds `qty` to the requester's counter for the waste type. -/
def incrementStock (s : ColmenaState) (wt : WasteType) (user : Nat) (qty : Nat) : ColmenaState :=
  { s with stock := fun u w =>
      if u == user && w == wt.id then s.stock u w + (qty : Int) else s.stock u w }

/-- Modelled from the spec: `StockService.moveStock` (not in `src/`)
decrements the source counter and increments the destination counter.
The service passes the transaction's `from`/`to` pointers through. -/
def moveStock (s : ColmenaState) (wt : WasteType) (fromU toU : Option Nat) (qty : Int) :
    ColmenaState :=
  match fromU, toU with
  | some f, some t =>
    { s with stock := fun u w =>
        if u == f && w == wt.id then s.stock u w - qty
        else if u == t && w == wt.id then s.stock u w + qty
        else s.stock u w }
  | _, _ => s

/-- Modelled from the spec: `SecurityService.grantReadAndWritePermissionsToUser`
(not in `src/`) records a read/write grant for the user on the row. -/
def grantReadAndWritePermissionsToUser (s : ColmenaState) (cls : String) (objId user : Nat) :
    ColmenaState :=
  if s.grants.contains (cls, objId, user) then s
  else { s with grants := s.grants ++ [(cls, objId, user)] }

/-- Modelled from the spec: `SecurityService.revokeReadAndWritePermissionsToUser`
(not in `src/`) removes the grant. -/
def revokeReadAndWritePermissionsToUser (s : ColmenaState) (cls : String) (objId user : Nat) :
    ColmenaState :=
  { s with grants := s.grants.filter (fun g => g != (cls, objId, user)) }

/-- `validateRegisterInput`'s forEach, with the `typesMap` accumulated in
`seen`: duplicate waste-type ids and over-maximum quantities throw. -/
def validateRegisterInputGo (maxQty : Nat) :
    List ContainerInput → List Nat → Except SagaError Unit
  | [], _ => .ok ()
  | c :: rest, seen =>
    if seen.contains c.typeId then .error (.duplicateWasteType c.typeId)
    else if c.qty > maxQty then .error .maxQuantityExceeded
    else validateRegisterInputGo maxQty rest (c.typeId :: seen)

/-- `validateRegisterInput`. -/
def validateRegisterInput (maxQty : Nat) (containers : List ContainerInput) :
    Except SagaError Unit :=
  validateRegisterInputGo maxQty containers []

/-- `validateTransferAcceptRejectRequest`: wrong type, already expired, or
requester not the recipient.  A request without a `to` pointer would make
the JavaScript `.equals` call blow up, modelled as `typeErrorNullRef`. -/
def validateTransferAcceptRejectRequest (t : Transaction) (user : Nat) :
    Except SagaError Unit :=
  if t.type ≠ some TransactionType.TRANSFER_REQUEST then .error (.notTransferRequest t.id)
  else if t.expiredAt.isSome then .error (.transactionExpired t.id)
  else
    match t.toU with
    | none => .error .typeErrorNullRef
    | some u => if u ≠ user then .error .notAllowedAcceptReject else .ok ()

/-- Container creation loop inside `registerRecover`: one line of input
creates `qty` containers of the resolved waste type, in the given status,
tagged with the transaction's sequence number (modelled from the spec:
`ContainerService.createContainersOfType` is not in `src/`). -/
def createContainersOfType (s : ColmenaState) (wt : WasteType) (qty : Nat)
    (st : ContainerStatus) (number : Nat) (user : Nat) : List Container × ColmenaState :=
  match qty with
  | 0 => ([], s)
  | n + 1 =>
    let c : Container :=
      { id := s.nextId, type := wt, status := st, createdBy := user, batchNumber := number }
    let s1 := { s with nextId := s.nextId + 1, containers := s.containers ++ [c] }
    let rest := createContainersOfType s1 wt n st number user
    (c :: rest.1, rest.2)

/-- `Promise.all(containersInput.map(...))` creating containers for every
input line; the waste type is read from the resolved map.  The `none`
branch is unreachable once `getWasteTypesFromIds` has succeeded on the
same ids. -/
def createContainersForInputs (s : ColmenaState) (wts : List WasteType) (number : Nat)
    (user : Nat) : List ContainerInput → List Container × ColmenaState
  | [] => ([], s)
  | item :: rest =>
    match wts.find? (fun w => w.id == item.typeId) with
    | none => createContainersForInputs s wts number user rest
    | some wt =>
      let created := createContainersOfType s wt item.qty .RECOVERED number user
      let tail := createContainersForInputs created.2 wts number user rest
      (created.1 ++ tail.1, tail.2)

/-- `Promise.all(containersInput.map(input => StockService.incrementStock ...))`. -/
def incrementStockForInputs (s : ColmenaState) (wts : List WasteType) (user : Nat) :
    List ContainerInput → ColmenaState
  | [] => s
  | item :: rest =>
    match wts.find? (fun w => w.id == item.typeId) with
    | none => incrementStockForInputs s wts user rest
    | some wt => incrementStockForInputs (incrementStock s wt user item.qty) wts user rest

/-- `registerRecover` (lines 158-212): validate the input, resolve waste
types and snapshot the requester's stock, create the RECOVER transaction,
create the containers and one detail per container, then increment stock
per input line.  On an error after the transaction was created, destroy it
and restore the stock snapshot, rethrowing wrapped. -/
def registerRecover (s : ColmenaState) (containersInput : List ContainerInput) (user : Nat) :
    SagaResult :=
  match validateRegisterInput s.maxContainersQuantityPerRequest containersInput with
  | .error e => (.error (.couldNotRegister e), s)
  | .ok _ =>
    match getWasteTypesFromIds s (containersInput.map (fun c => c.typeId)) with
    | .error e => (.error (.couldNotRegister e), s)
    | .ok wasteTypes =>
      let currentStock := fun t => s.stock user t
      match createTransaction s { toU := some user, type := some .RECOVER } (.token user) with
      | (.error e, sE) =>
        (.error (.couldNotRegister e),
         { sE with stock := fun u t => if u == user then currentStock t else sE.stock u t })
      | (.ok transaction, s1) =>
        let afterContainers :=
          createContainersForInputs s1 wasteTypes transaction.number user containersInput
        match createDetailsForContainers afterContainers.2 transaction afterContainers.1 with
        | (.ok details, s3) =>
          let s4 := incrementStockForInputs s3 wasteTypes user containersInput
          (.ok (transaction, details), s4)
        | (.error e, s3) =>
          let s4 := destroyTransactionInState s3 transaction.id
          let s5 :=
            { s4 with stock := fun u t => if u == user then currentStock t else s4.stock u t }
          (.error (.couldNotRegister e), s5)

/-- The per-container stage of `registerTransferRequest` after every
status was flipped: grant the recipient read/write on the container, then
create the detail (`grant(...).then(() => createTransactionDetail(...))`). -/
def grantAndDetailForContainers (s : ColmenaState) (tx : Transaction) (recipient : Nat) :
    List Container → Except SagaError (List TransactionDetail) × ColmenaState
  | [] => (.ok [], s)
  | c :: rest =>
    let s1 := grantReadAndWritePermissionsToUser s "Container" c.id recipient
    match createTransactionDetail s1 tx c with
    | .error e => (.error e, s1)
    | .ok (d, s2) =>
      let tail := grantAndDetailForContainers s2 tx recipient rest
      (tail.1.map (fun ds => d :: ds), tail.2)

/-- Compensation of `registerTransferRequest`: each container back to
RECOVERED while revoking the recipient's grant on it
(`rollbackContainersToStatus` with the revoke `applyFnToEach`). -/
def rollbackRequestContainers (s : ColmenaState) (cs : List Container) (recipient : Nat) :
    ColmenaState :=
  let s1 := setContainersStatus s (cs.map (fun c => c.id)) .RECOVERED
  cs.foldl (fun acc c => revokeReadAndWritePermissionsToUser acc "Container" c.id recipient) s1

/-- `registerTransferRequest` (lines 223-278).  The source's `to`
parameter is named `toUser` (`to` is reserved in Lean). -/
def registerTransferRequest (s : ColmenaState) (containersInput : List Nat) (toUser : Option Nat)
    (user : Nat) : SagaResult :=
  match toUser with
  | none => (.error (.couldNotRegister .missingRecipient), s)
  | some toId =>
    if !(s.users.contains toId) then (.error (.couldNotRegister (.userNotFound toId)), s)
    else
      match findContainersByIds s containersInput with
      | .error e => (.error (.couldNotRegister e), s)
      | .ok containers =>
        if !(containers.all (fun c => c.status == .RECOVERED)) then
          (.error (.couldNotRegister .invalidContainerStatus), s)
        else
          match createTransaction s
              { fromU := some user, toU := some toId, type := some .TRANSFER_REQUEST }
              (.token user) with
          | (.error e, sE) => (.error (.couldNotRegister e), sE)
          | (.ok transaction, s1) =>
            let s2 := grantReadAndWritePermissionsToUser s1 "Transaction" transaction.id toId
            let s3 := setContainersStatus s2 (containers.map (fun c => c.id)) .TRANSFER_PENDING
            match grantAndDetailForContainers s3 transaction toId containers with
            | (.ok details, s4) =>
              let s5 := { s4 with
                notifications := s4.notifications ++ [(transaction.id, user, [toId])] }
              (.ok (transaction, details), s5)
            | (.error e, s4) =>
              let s5 := destroyTransactionInState s4 transaction.id
              let s6 := rollbackRequestContainers s5 containers toId
              (.error (.couldNotRegister e), s6)

/-- `registerTransferAccept` (lines 290-341).  Two source behaviours are
modelled precisely.  First, `transaction.set('relatedTo', ...)` and
`transferRequestTransaction.set('expiredAt', new Date())` are in-memory
mutations that could reach the store only through the dirty-children
cascade of a TransactionDetail save, and no detail save ever happens in
this workflow.  Second, the per-container stage on line 315 is
`StockService.moveStock(...).createTransactionDetail(transaction, container, user)`
-- a method call on the promise returned by `moveStock` (the
`.then(() => ...)` of the sibling workflows is missing), which throws a
TypeError synchronously after the first container's stock move has been
started.  With at least one container the workflow therefore always
compensates (explicit master-key saves) and rethrows; with no containers
it returns the in-memory transaction while the store keeps the bare row
(no `relatedTo`) and the request keeps `expiredAt` unset. -/
def registerTransferAccept (s : ColmenaState) (transactionId : Nat) (user : Nat) : SagaResult :=
  match findRawTransaction s transactionId with
  | .error e => (.error (.couldNotRegister e), s)
  | .ok transferRequestTransaction =>
    let fromU := transferRequestTransaction.fromU
    let toU := transferRequestTransaction.toU
    match validateTransferAcceptRejectRequest transferRequestTransaction user with
    | .error e => (.error (.couldNotRegister e), s)
    | .ok _ =>
      match createTransaction s { fromU := fromU, toU := toU, type := some .TRANSFER_ACCEPT }
          (.token user) with
      | (.error e, sE) => (.error (.couldNotRegister e), sE)
      | (.ok created, s1) =>
        let transaction := { created with relatedTo := some transferRequestTransaction.id }
        let expiredRequest := { transferRequestTransaction with expiredAt := some s.now }
        let containers := findContainersByTransaction s1 transferRequestTransaction.id
        match containers with
        | [] => (.ok (transaction, []), s1)
        | c :: _ =>
          let s2 := moveStock s1 c.type fromU toU 1
          let s3 := destroyTransactionInState s2 transaction.id
          let s4 := setContainersStatus s3 (containers.map (fun x => x.id)) .TRANSFER_PENDING
          let s5 := saveTransaction s4 { expiredRequest with expiredAt := none }
          (.error (.couldNotRegister .typeErrorNotAFunction), s5)

/-- `registerTransferReject` (lines 343-387).  `relatedTo` on the new
transaction and `expiredAt` on the request are set in memory and persist
only through the dirty-children cascade of the first TransactionDetail
save: with no containers nothing further is persisted and the workflow
still returns successfully; with containers the cascade saves both rows
(modelled at the start of the detail stage -- when the first detail save
fails the compensated final state is the same either way, because the
catch destroys the transaction, force-saves the containers back to
TRANSFER_PENDING and saves the request with `expiredAt` cleared). -/
def registerTransferReject (s : ColmenaState) (transactionId : Nat) (reason : String)
    (user : Nat) : SagaResult :=
  match findRawTransaction s transactionId with
  | .error e => (.error (.couldNotRegister e), s)
  | .ok transferRequestTransaction =>
    match validateTransferAcceptRejectRequest transferRequestTransaction user with
    | .error e => (.error (.couldNotRegister e), s)
    | .ok _ =>
      match createTransaction s
          { fromU := transferRequestTransaction.fromU
            toU := transferRequestTransaction.toU
            type := some .TRANSFER_REJECT
            reason := some reason } (.token user) with
      | (.error e, sE) => (.error (.couldNotRegister e), sE)
      | (.ok created, s1) =>
        let transaction := { created with relatedTo := some transferRequestTransaction.id }
        let expiredRequest := { transferRequestTransaction with expiredAt := some s.now }
        let containers := findContainersByTransaction s1 transferRequestTransaction.id
        match containers with
        | [] => (.ok (transaction, []), s1)
        | _ :: _ =>
          let s2 := saveTransaction s1 transaction
          let s3 := saveTransaction s2 expiredRequest
          let s4 := setContainersStatus s3 (containers.map (fun c => c.id)) .RECOVERED
          match createDetailsForContainers s4 transaction containers with
          | (.ok details, s5) => (.ok (transaction, details), s5)
          | (.error e, s5) =>
            let s6 := destroyTransactionInState s5 transaction.id
            let s7 := setContainersStatus s6 (containers.map (fun c => c.id)) .TRANSFER_PENDING
            let s8 := saveTransaction s7 { expiredRequest with expiredAt := none }
            (.error (.couldNotRegister e), s8)

/-- The per-container stage of `registerTransferCancel` after the flips:
revoke the recipient's grant, then create the detail. -/
def revokeAndDetailForContainers (s : ColmenaState) (tx : Transaction) (toU : Option Nat) :
    List Container → Except SagaError (List TransactionDetail) × ColmenaState
  | [] => (.ok [], s)
  | c :: rest =>
    let s1 := match toU with
      | some u => revokeReadAndWritePermissionsToUser s "Container" c.id u
      | none => s
    match createTransactionDetail s1 tx c with
    | .error e => (.error e, s1)
    | .ok (d, s2) =>
      let tail := revokeAndDetailForContainers s2 tx toU rest
      (tail.1.map (fun ds => d :: ds), tail.2)

/-- Compensation of `registerTransferCancel`: containers back to
TRANSFER_PENDING while re-granting the recipient
(`rollbackContainersToStatus` with the grant `applyFnToEach`). -/
def rollbackCancelContainers (s : ColmenaState) (cs : List Container) (toU : Option Nat) :
    ColmenaState :=
  let s1 := setContainersStatus s (cs.map (fun c => c.id)) .TRANSFER_PENDING
  match toU with
  | some u =>
    cs.foldl (fun acc c => grantReadAndWritePermissionsToUser acc "Container" c.id u) s1
  | none => s1

/-- `registerTransferCancel` (lines 389-453).  Validation is inlined in
the source (type, expiry, then requester must equal the request's `from`).
The source bug on lines 409-415: `createTransaction` is called with
positional arguments `(from, to, type, null, sessionToken)` although it
expects `(attributes, sessionToken)`.  Destructuring the `from` user
object as the attributes leaves every attribute `undefined` (the empty
`TransactionAttributes`), and -- decisively -- the request's `to` user
object lands in the sessionToken parameter, so the row save is issued
with an unresolvable session token and rejects with
INVALID_SESSION_TOKEN: `createTransaction` throws after consuming the
sequence number, `transaction` stays undefined, the catch skips all
compensation, and the workflow always rethrows with nothing persisted.
The code after the call is dead; it is still modelled faithfully in the
`.ok` branch (with the cascade persistence of the reject workflow). -/
def registerTransferCancel (s : ColmenaState) (transactionId : Nat) (user : Nat) : SagaResult :=
  match findRawTransaction s transactionId with
  | .error e => (.error (.couldNotRegister e), s)
  | .ok transferRequestTransaction =>
    if transferRequestTransaction.type ≠ some TransactionType.TRANSFER_REQUEST then
      (.error (.couldNotRegister (.notTransferRequest transactionId)), s)
    else if transferRequestTransaction.expiredAt.isSome then
      (.error (.couldNotRegister (.transactionExpired transactionId)), s)
    else
      match transferRequestTransaction.fromU with
      | none => (.error (.couldNotRegister .typeErrorNullRef), s)
      | some fromId =>
        if fromId ≠ user then (.error (.couldNotRegister .notAllowedCancel), s)
        else
          match createTransaction s {} (.userObject transferRequestTransaction.toU) with
          | (.error e, sE) => (.error (.couldNotRegister e), sE)
          | (.ok created, s1) =>
            let transaction := { created with relatedTo := some transferRequestTransaction.id }
            let expiredRequest := { transferRequestTransaction with expiredAt := some s.now }
            let containers := findContainersByTransaction s1 transferRequestTransaction.id
            match containers with
            | [] => (.ok (transaction, []), s1)
            | _ :: _ =>
              let s2 := saveTransaction s1 transaction
              let s3 := saveTransaction s2 expiredRequest
              let s4 := setContainersStatus s3 (containers.map (fun c => c.id)) .RECOVERED
              match revokeAndDetailForContainers s4 transaction
                  transferRequestTransaction.toU containers with
              | (.ok details, s5) => (.ok (transaction, details), s5)
              | (.error e, s5) =>
                let s6 := destroyTransactionInState s5 transaction.id
                let s7 := rollbackCancelContainers s6 containers transferRequestTransaction.toU
                let s8 := saveTransaction s7 { expiredRequest with expiredAt := none }
                (.error (.couldNotRegister e), s8)

/-- `Promise.all(containers.map(c => SecurityService.canTransportContainer(c, user)))`
with the authorization decision taken from the `canTransport` oracle. -/
def canTransportAll (s : ColmenaState) (user : Nat) : List Container → Except SagaError Unit
  | [] => .ok ()
  | c :: rest =>
    if s.canTransport c.id user then canTransportAll s user rest
    else .error (.transportDenied c.id)

/-- `registerTransport` (lines 465-536).  The source's `to` parameter is
named `toUser` (`to` is reserved in Lean). -/
def registerTransport (s : ColmenaState) (containersInput : List Nat) (toUser : Option Nat)
    (user : Nat) : SagaResult :=
  match toUser with
  | none => (.error (.couldNotRegister .missingDestination), s)
  | some toId =>
    if !(s.recyclingCenters.contains toId) then
      (.error (.couldNotRegister (.recyclingCenterNotFound toId)), s)
    else
      match findContainersByIds s containersInput with
      | .error e => (.error (.couldNotRegister e), s)
      | .ok containers =>
        let recoveredIds :=
          (containers.filter (fun c => c.status == .RECOVERED)).map (fun c => c.id)
        let transferredIds :=
          (containers.filter (fun c => c.status == .TRANSFERRED)).map (fun c => c.id)
        if !(containers.all (fun c =>
              c.status == .RECOVERED || c.status == .TRANSFERRED)) then
          (.error (.couldNotRegister .invalidContainerStatus), s)
        else
          match canTransportAll s user containers with
          | .error e => (.error (.couldNotRegister e), s)
          | .ok _ =>
            match createTransaction s
                { fromU := some user, type := some .TRANSPORT, recyclingCenter := some toId }
                (.token user) with
            | (.error e, sE) => (.error (.couldNotRegister e), sE)
            | (.ok transaction, s1) =>
              let s2 := setContainersStatus s1 (containers.map (fun c => c.id)) .IN_TRANSIT
              match createDetailsForContainers s2 transaction containers with
              | (.ok details, s3) =>
                let usersList :=
                  (containers.map (fun c => c.createdBy)).filter (fun u => u != user)
                let s4 := { s3 with
                  notifications := s3.notifications ++ [(transaction.id, user, usersList)] }
                (.ok (transaction, details), s4)
              | (.error e, s3) =>
                let s4 := destroyTransactionInState s3 transaction.id
                let s5 := setContainersStatus s4
                  ((containers.filter (fun c => recoveredIds.contains c.id)).map (fun c => c.id))
                  .RECOVERED
                let s6 := setContainersStatus s5
                  ((containers.filter (fun c => transferredIds.contains c.id)).map (fun c => c.id))
                  .TRANSFERRED
                (.error (.couldNotRegister e), s6)

/-- Store well-formedness: row ids are unique and below the id allocator,
and every ledger entry's sequence number is below the sequence counter
(the sequence generator is monotonic and process-wide). -/
def ColmenaState.WF (s : ColmenaState) : Prop :=
  (s.transactions.map (fun t => t.id)).Nodup ∧
  (s.containers.map (fun c => c.id)).Nodup ∧
  (∀ t ∈ s.transactions, t.id < s.nextId) ∧
  (∀ c ∈ s.containers, c.id < s.nextId) ∧
  (∀ t ∈ s.transactions, t.number < s.seq)

instance (s : ColmenaState) : Decidable s.WF := by
  unfold ColmenaState.WF
  exact inferInstance

/-- A Parse cloud-function request as seen by the `secure` decorator:
the master flag, the optional authenticated user, and the payload the
wrapped callback consumes. -/
structure FunctionRequest (π : Type) where
  master : Bool
  user : Option Nat
  params : π

/-- Outcome of a guarded cloud function: the callback's result, or the
INVALID_SESSION_TOKEN Parse error. -/
inductive CloudResult (β : Type)
  | ok (value : β)
  | invalidSessionToken (message : String)
  deriving DecidableEq, Repr

/-- The `secure` decorator (utils, lines 8-17): with neither the master
flag nor a user it throws INVALID_SESSION_TOKEN, otherwise it calls the
wrapped callback on the request and returns its result. -/
def secure {π β : Type} (callback : FunctionRequest π → β) (request : FunctionRequest π) :
    CloudResult β :=
  if !request.master && request.user.isNone then
    .invalidSessionToken "User needs to be authenticated"
  else
    .ok (callback request)

/-- Waste type used by the concrete test states. -/
def plasticType : WasteType := { id := 1, qty := 4, unit := "kg" }

/-- A pending TRANSFER_REQUEST (id 10, from user 1 to user 2) over
container 20, with its detail row 30. -/
def pendingRequestTx : Transaction :=
  { id := 10, type := some .TRANSFER_REQUEST, fromU := some 1, toU := some 2
    number := 3, recyclingCenter := none, reason := none, relatedTo := none, expiredAt := none }

/-- Container 20, owned by user 1, pending transfer. -/
def pendingContainer : Container :=
  { id := 20, type := plasticType, status := .TRANSFER_PENDING, createdBy := 1, batchNumber := 3 }

/-- Detail row linking request 10 to container 20. -/
def pendingDetail : TransactionDetail :=
  { id := 30, transaction := 10, container := 20, qty := 4, unit := "kg" }

/-- Concrete world with one pending transfer request, used by the
terminal-operation claims. -/
def statePending : ColmenaState :=
  { seq := 7, nextId := 40, now := 99
    transactions := [pendingRequestTx]
    details := [pendingDetail]
    containers := [pendingContainer]
    users := [1, 2]
    recyclingCenters := [5]
    wasteTypes := [plasticType]
    stock := fun _ _ => 0
    grants := [("Container", 20, 2)]
    notifications := []
    canTransport := fun _ _ => true
    failDetailSave := fun _ => false
    maxContainersQuantityPerRequest := 10 }

/-- Two RECOVERED containers sharing owner 2, used by the transport
notification claims. -/
def twoOwnedContainers : List Container :=
  [ { id := 20, type := plasticType, status := .RECOVERED, createdBy := 2, batchNumber := 1 }
  , { id := 21, type := plasticType, status := .RECOVERED, createdBy := 2, batchNumber := 1 } ]

/-- Concrete world with two RECOVERED containers sharing owner 2, used by
the transport notification claims. -/
def stateTwoOwned : ColmenaState :=
  { seq := 7, nextId := 40, now := 99
    transactions := []
    details := []
    containers := twoOwnedContainers
    users := [1, 2]
    recyclingCenters := [5]
    wasteTypes := [plasticType]
    stock := fun _ _ => 0
    grants := []
    notifications := []
    canTransport := fun _ _ => true
    failDetailSave := fun _ => false
    maxContainersQuantityPerRequest := 10 }

/-- Concrete world for the transport compensation claim: container 20 is
RECOVERED, container 21 is TRANSFERRED, and the detail save for container
20 is set up to fail. -/
def mixedContainers : List Container :=
  [ { id := 20, type := plasticType, status := .RECOVERED, createdBy := 2, batchNumber := 1 }
  , { id := 21, type := plasticType, status := .TRANSFERRED, createdBy := 3, batchNumber := 1 } ]

def stateTransportFail : ColmenaState :=
  { stateTwoOwned with
      containers := mixedContainers
      failDetailSave := fun id => id == 20 }

/-- Concrete world: `statePending` with the request's TransactionDetail
rows removed -- a pending TRANSFER_REQUEST with no details, exactly what
`registerTransferRequest` over an empty container list creates. -/
def stateEmptyRequest : ColmenaState :=
  { statePending with details := [] }

deriving instance DecidableEq for Except

/-- The attributes `registerTransport` passes to `createTransaction`. -/
def transportAttrs (rc user : Nat) : TransactionAttributes :=
  { fromU := some user, toU := none, type := some .TRANSPORT,
    recyclingCenter := some rc, reason := none }

/-- The TRANSPORT transaction creation step of `registerTransport`,
named for the proofs below. -/
def transportCreated (s : ColmenaState) (rc user : Nat) : Transaction × ColmenaState :=
  (newTransaction s (transportAttrs rc user), stateAfterCreate s (transportAttrs rc user))

/-- The flip-and-create-details stage of `registerTransport`, named for
the proofs below. -/
def transportDetails (s : ColmenaState) (cs : List Container) (rc user : Nat) :
    Except SagaError (List TransactionDetail) × ColmenaState :=
  createDetailsForContainers
    (setContainersStatus (transportCreated s rc user).2 (cs.map (fun c => c.id)) .IN_TRANSIT)
    (transportCreated s rc user).1 cs

/-- The attributes `registerRecover` passes to `createTransaction`. -/
def recoverAttrs (user : Nat) : TransactionAttributes :=
  { toU := some user, type := some .RECOVER }

/-- The RECOVER transaction creation step of `registerRecover`, named
for the proofs below. -/
def recoverCreated (s : ColmenaState) (user : Nat) : Transaction × ColmenaState :=
  (newTransaction s (recoverAttrs user), stateAfterCreate s (recoverAttrs user))

/-- The container creation stage of `registerRecover`. -/
def recoverContainers (s : ColmenaState) (wts : List WasteType) (user : Nat)
    (input : List ContainerInput) : List Container × ColmenaState :=
  createContainersForInputs (recoverCreated s user).2 wts (recoverCreated s user).1.number
    user input

/-- The detail creation stage of `registerRecover`. -/
def recoverDetails (s : ColmenaState) (wts : List WasteType) (user : Nat)
    (input : List ContainerInput) : Except SagaError (List TransactionDetail) × ColmenaState :=
  createDetailsForContainers (recoverContainers s wts user input).2 (recoverCreated s user).1
    (recoverContainers s wts user input).1

/-! Lemmas and claim theorems. -/

lemma findContainer_id_eq (s : ColmenaState) (i : Nat) (c : Container)
    (h : findContainer s i = some c) : c.id = i := by
  have := List.find?_some h
  simpa using this

lemma filter_bne_id_of_forall (l : List Transaction) (n : Nat) (h : ∀ t ∈ l, t.id ≠ n) :
    l.filter (fun t => t.id != n) = l := by
  rw [List.filter_eq_self]
  intro a ha
  simpa using h a ha

lemma find?_container_of_mem_nodup (l : List Container) (x : Container)
    (hnd : (l.map (fun c => c.id)).Nodup) (hx : x ∈ l) :
    l.find? (fun c => c.id == x.id) = some x := by
  induction l with
  | nil => simp at hx
  | cons a l ih =>
    simp only [List.map_cons, List.nodup_cons] at hnd
    rcases List.mem_cons.mp hx with hxa | hxl
    · subst hxa
      rw [List.find?_cons_of_pos _ (by simp)]
    · have hne : a.id ≠ x.id := by
        intro hcontra
        exact hnd.1 (hcontra ▸ List.mem_map.mpr ⟨x, hxl, rfl⟩)
      rw [List.find?_cons_of_neg _ (by simp [hne])]
      exact ih hnd.2 hxl

lemma set_status_self (c : Container) (st : ContainerStatus) (h : c.status = st) :
    ({ c with status := st } : Container) = c := by
  cases c
  simp_all

lemma grant_keeps_transactions (s : ColmenaState) (cls : String) (o u : Nat) :
    (grantReadAndWritePermissionsToUser s cls o u).transactions = s.transactions := by
  unfold grantReadAndWritePermissionsToUser
  split <;> rfl

lemma grant_keeps_containers (s : ColmenaState) (cls : String) (o u : Nat) :
    (grantReadAndWritePermissionsToUser s cls o u).containers = s.containers := by
  unfold grantReadAndWritePermissionsToUser
  split <;> rfl

lemma grant_keeps_oracle (s : ColmenaState) (cls : String) (o u : Nat) :
    (grantReadAndWritePermissionsToUser s cls o u).failDetailSave = s.failDetailSave := by
  unfold grantReadAndWritePermissionsToUser
  split <;> rfl

lemma createDetails_keeps (tx : Transaction) :
    ∀ (cs : List Container) (s : ColmenaState),
      (createDetailsForContainers s tx cs).2.transactions = s.transactions ∧
      (createDetailsForContainers s tx cs).2.containers = s.containers ∧
      (createDetailsForContainers s tx cs).2.stock = s.stock ∧
      (createDetailsForContainers s tx cs).2.notifications = s.notifications ∧
      (createDetailsForContainers s tx cs).2.grants = s.grants := by
  intro cs
  induction cs with
  | nil => intro s; exact ⟨rfl, rfl, rfl, rfl, rfl⟩
  | cons c rest ih =>
    intro s
    by_cases hf : s.failDetailSave c.id
    · simp [createDetailsForContainers, createTransactionDetail, hf]
    · simpa [createDetailsForContainers, createTransactionDetail, hf] using
        ih { s with nextId := s.nextId + 1,
                    details := s.details ++
                      [{ id := s.nextId, transaction := tx.id, container := c.id,
                         qty := c.type.qty, unit := c.type.unit }] }

lemma grantAndDetail_keeps (tx : Transaction) (recipient : Nat) :
    ∀ (cs : List Container) (s : ColmenaState),
      (grantAndDetailForContainers s tx recipient cs).2.transactions = s.transactions ∧
      (grantAndDetailForContainers s tx recipient cs).2.containers = s.containers := by
  intro cs
  induction cs with
  | nil => intro s; exact ⟨rfl, rfl⟩
  | cons c rest ih =>
    intro s
    have hg1 := grant_keeps_transactions s "Container" c.id recipient
    have hg2 := grant_keeps_containers s "Container" c.id recipient
    by_cases hf : (grantReadAndWritePermissionsToUser s "Container" c.id recipient).failDetailSave c.id
    · simp [grantAndDetailForContainers, createTransactionDetail, hf, hg1, hg2]
    · have := ih { grantReadAndWritePermissionsToUser s "Container" c.id recipient with
          nextId := (grantReadAndWritePermissionsToUser s "Container" c.id recipient).nextId + 1,
          details := (grantReadAndWritePermissionsToUser s "Container" c.id recipient).details ++
            [{ id := (grantReadAndWritePermissionsToUser s "Container" c.id recipient).nextId,
               transaction := tx.id, container := c.id,
               qty := c.type.qty, unit := c.type.unit }] }
      simp only [grantAndDetailForContainers, createTransactionDetail, hf] at *
      simpa [hg1, hg2] using this

lemma revoke_keeps_transactions (s : ColmenaState) (cls : String) (o u : Nat) :
    (revokeReadAndWritePermissionsToUser s cls o u).transactions = s.transactions := rfl

lemma revokeAndDetail_keeps (tx : Transaction) (toU : Option Nat) :
    ∀ (cs : List Container) (s : ColmenaState),
      (revokeAndDetailForContainers s tx toU cs).2.transactions = s.transactions ∧
      (revokeAndDetailForContainers s tx toU cs).2.containers = s.containers := by
  intro cs
  induction cs with
  | nil => intro s; exact ⟨rfl, rfl⟩
  | cons c rest ih =>
    intro s
    cases toU with
    | none =>
      by_cases hf : s.failDetailSave c.id
      · simp [revokeAndDetailForContainers, createTransactionDetail, hf]
      · simpa [revokeAndDetailForContainers, createTransactionDetail, hf] using
          ih { s with nextId := s.nextId + 1,
                      details := s.details ++
                        [{ id := s.nextId, transaction := tx.id, container := c.id,
                           qty := c.type.qty, unit := c.type.unit }] }
    | some u =>
      by_cases hf : s.failDetailSave c.id
      · simp [revokeAndDetailForContainers, createTransactionDetail,
          revokeReadAndWritePermissionsToUser, hf]
      · simpa [revokeAndDetailForContainers, createTransactionDetail,
          revokeReadAndWritePermissionsToUser, hf] using
          ih { s with
                grants := s.grants.filter (fun g => g != ("Container", c.id, u)),
                nextId := s.nextId + 1,
                details := s.details ++
                  [{ id := s.nextId, transaction := tx.id, container := c.id,
                     qty := c.type.qty, unit := c.type.unit }] }

lemma findContainersByIds_ids (s : ColmenaState) :
    ∀ (ids : List Nat) (cs : List Container), findContainersByIds s ids = .ok cs →
      cs.map (fun c => c.id) = ids := by
  intro ids
  induction ids with
  | nil => intro cs h; cases h; rfl
  | cons i rest ih =>
    intro cs h
    unfold findContainersByIds at h
    cases hfc : findContainer s i with
    | none => rw [hfc] at h; cases h
    | some c =>
      rw [hfc] at h
      cases hrest : findContainersByIds s rest with
      | error e => rw [hrest] at h; cases h
      | ok cs0 =>
        rw [hrest] at h
        cases h
        simp only [List.map_cons, ih cs0 hrest, findContainer_id_eq s i c hfc]

lemma findContainersByIds_sound (s : ColmenaState) :
    ∀ (ids : List Nat) (cs : List Container), findContainersByIds s ids = .ok cs →
      ∀ c ∈ cs, findContainer s c.id = some c := by
  intro ids
  induction ids with
  | nil => intro cs h; cases h; intro c hc; simp at hc
  | cons i rest ih =>
    intro cs h
    unfold findContainersByIds at h
    cases hfc : findContainer s i with
    | none => rw [hfc] at h; cases h
    | some c0 =>
      rw [hfc] at h
      cases hrest : findContainersByIds s rest with
      | error e => rw [hrest] at h; cases h
      | ok cs0 =>
        rw [hrest] at h
        cases h
        intro c hc
        rcases List.mem_cons.mp hc with hc0 | hctail
        · subst hc0
          rw [findContainer_id_eq s i c hfc]
          exact hfc
        · exact ih cs0 hrest c hctail

lemma findContainersByIds_ok_of_all (s : ColmenaState) :
    ∀ (ids : List Nat), (∀ i ∈ ids, (findContainer s i).isSome) →
      ∃ cs, findContainersByIds s ids = .ok cs := by
  intro ids
  induction ids with
  | nil => intro _; exact ⟨[], rfl⟩
  | cons i rest ih =>
    intro h
    have hi := h i (List.mem_cons_self i rest)
    cases hfc : findContainer s i with
    | none => rw [hfc] at hi; simp at hi
    | some c =>
      obtain ⟨cs0, hcs0⟩ := ih (fun j hj => h j (List.mem_cons_of_mem i hj))
      exact ⟨c :: cs0, by simp [findContainersByIds, hfc, hcs0, Except.map]⟩

lemma findContainersByIds_mem (s : ColmenaState) :
    ∀ (ids : List Nat) (cs : List Container), findContainersByIds s ids = .ok cs →
      ∀ i ∈ ids, ∀ c, findContainer s i = some c → c ∈ cs := by
  intro ids
  induction ids with
  | nil => intro cs h i hi; simp at hi
  | cons i0 rest ih =>
    intro cs h i hi c hc
    unfold findContainersByIds at h
    cases hfc : findContainer s i0 with
    | none => rw [hfc] at h; cases h
    | some c0 =>
      rw [hfc] at h
      cases hrest : findContainersByIds s rest with
      | error e => rw [hrest] at h; cases h
      | ok cs0 =>
        rw [hrest] at h
        cases h
        rcases List.mem_cons.mp hi with hi0 | hitail
        · subst hi0
          rw [hc] at hfc
          cases hfc
          exact List.mem_cons_self c cs0
        · exact List.mem_cons_of_mem c0 (ih cs0 hrest i hitail c hc)

lemma canTransportAll_ok (s : ColmenaState) (user : Nat) :
    ∀ (cs : List Container), (∀ c ∈ cs, s.canTransport c.id user = true) →
      canTransportAll s user cs = .ok () := by
  intro cs
  induction cs with
  | nil => intro _; rfl
  | cons c rest ih =>
    intro h
    unfold canTransportAll
    rw [h c (List.mem_cons_self c rest)]
    exact ih (fun c0 hc0 => h c0 (List.mem_cons_of_mem c hc0))

lemma createDetails_keeps_oracle (tx : Transaction) :
    ∀ (cs : List Container) (s : ColmenaState),
      (createDetailsForContainers s tx cs).2.failDetailSave = s.failDetailSave := by
  intro cs
  induction cs with
  | nil => intro s; rfl
  | cons c rest ih =>
    intro s
    by_cases hf : s.failDetailSave c.id
    · simp [createDetailsForContainers, createTransactionDetail, hf]
    · simpa [createDetailsForContainers, createTransactionDetail, hf] using
        ih { s with nextId := s.nextId + 1,
                    details := s.details ++
                      [{ id := s.nextId, transaction := tx.id, container := c.id,
                         qty := c.type.qty, unit := c.type.unit }] }

lemma createDetails_fail (tx : Transaction) :
    ∀ (cs : List Container) (s : ColmenaState),
      (∃ c ∈ cs, s.failDetailSave c.id = true) →
      (createDetailsForContainers s tx cs).1 = .error (.detailNotSaved .saveFailed) := by
  intro cs
  induction cs with
  | nil => intro s h; simp at h
  | cons c rest ih =>
    intro s h
    by_cases hf : s.failDetailSave c.id
    · simp [createDetailsForContainers, createTransactionDetail, hf]
    · rcases h with ⟨c0, hc0, hfail⟩
      rcases List.mem_cons.mp hc0 with hc0c | hc0rest
      · subst hc0c; exact absurd hfail hf
      · have hrec := ih { s with nextId := s.nextId + 1,
                                 details := s.details ++
                                   [{ id := s.nextId, transaction := tx.id, container := c.id,
                                      qty := c.type.qty, unit := c.type.unit }] }
          ⟨c0, hc0rest, hfail⟩
        simp [createDetailsForContainers, createTransactionDetail, hf, hrec, Except.map]

lemma validateRegisterInputGo_ok_iff (maxQty : Nat) :
    ∀ (items : List ContainerInput) (seen : List Nat),
      validateRegisterInputGo maxQty items seen = .ok () ↔
        ((∀ i ∈ items, i.typeId ∉ seen) ∧ (items.map (fun i => i.typeId)).Nodup ∧
          ∀ i ∈ items, i.qty ≤ maxQty) := by
  intro items
  induction items with
  | nil => intro seen; simp [validateRegisterInputGo]
  | cons c rest ih =>
    intro seen
    unfold validateRegisterInputGo
    by_cases hseen : c.typeId ∈ seen
    · rw [if_pos (List.elem_iff.mpr hseen)]
      constructor
      · intro h; cases h
      · rintro ⟨hnot, -, -⟩
        exact absurd hseen (hnot c (List.mem_cons_self c rest))
    · rw [if_neg (fun hcontra => hseen (List.elem_iff.mp hcontra))]
      by_cases hqty : c.qty > maxQty
      · rw [if_pos hqty]
        constructor
        · intro h; cases h
        · rintro ⟨-, -, hle⟩
          exact absurd (hle c (List.mem_cons_self c rest)) (by omega)
      · rw [if_neg hqty]
        rw [ih (c.typeId :: seen)]
        constructor
        · rintro ⟨hnotin, hnd, hle⟩
          refine ⟨?_, ?_, ?_⟩
          · intro i hi
            rcases List.mem_cons.mp hi with hic | hirest
            · subst hic; exact hseen
            · exact fun hmem => hnotin i hirest (List.mem_cons_of_mem _ hmem)
          · rw [List.map_cons, List.nodup_cons]
            refine ⟨?_, hnd⟩
            intro hmem
            rcases List.mem_map.mp hmem with ⟨i, hirest, hieq⟩
            exact hnotin i hirest (hieq ▸ List.mem_cons_self _ _)
          · intro i hi
            rcases List.mem_cons.mp hi with hic | hirest
            · subst hic; omega
            · exact hle i hirest
        · rintro ⟨hnotin, hnd, hle⟩
          rw [List.map_cons, List.nodup_cons] at hnd
          refine ⟨?_, hnd.2, fun i hi => hle i (List.mem_cons_of_mem _ hi)⟩
          intro i hi hmem
          rcases List.mem_cons.mp hmem with hic | hiseen
          · exact hnd.1 (hic ▸ List.mem_map.mpr ⟨i, hi, rfl⟩)
          · exact hnotin i (List.mem_cons_of_mem _ hi) hiseen

lemma validateRegisterInput_ok_iff (maxQty : Nat) (items : List ContainerInput) :
    validateRegisterInput maxQty items = .ok () ↔
      ((items.map (fun i => i.typeId)).Nodup ∧ ∀ i ∈ items, i.qty ≤ maxQty) := by
  unfold validateRegisterInput
  rw [validateRegisterInputGo_ok_iff]
  constructor
  · rintro ⟨-, h2, h3⟩; exact ⟨h2, h3⟩
  · rintro ⟨h2, h3⟩; exact ⟨fun i _ => by simp, h2, h3⟩

lemma getWasteTypesFromIds_ids (s : ColmenaState) :
    ∀ (ids : List Nat) (ws : List WasteType), getWasteTypesFromIds s ids = .ok ws →
      ws.map (fun w => w.id) = ids := by
  intro ids
  induction ids with
  | nil => intro ws h; cases h; rfl
  | cons i rest ih =>
    intro ws h
    unfold getWasteTypesFromIds at h
    cases hfw : s.wasteTypes.find? (fun w => w.id == i) with
    | none => rw [hfw] at h; cases h
    | some w =>
      rw [hfw] at h
      cases hrest : getWasteTypesFromIds s rest with
      | error e => rw [hrest] at h; cases h
      | ok ws0 =>
        rw [hrest] at h
        cases h
        have hw : w.id = i := by simpa using List.find?_some hfw
        simp only [List.map_cons, ih ws0 hrest, hw]

lemma incrementStockForInputs_untouched (user u2 : Nat) (tid : Nat) (wts : List WasteType) :
    ∀ (items : List ContainerInput) (s : ColmenaState),
      (∀ j ∈ items, j.typeId ≠ tid) →
      (incrementStockForInputs s wts user items).stock u2 tid = s.stock u2 tid := by
  intro items
  induction items with
  | nil => intro s _; rfl
  | cons j rest ih =>
    intro s h
    have hj : j.typeId ≠ tid := h j (List.mem_cons_self j rest)
    unfold incrementStockForInputs
    cases hfw : wts.find? (fun w => w.id == j.typeId) with
    | none => exact ih s (fun j0 hj0 => h j0 (List.mem_cons_of_mem _ hj0))
    | some w =>
      have hw : w.id = j.typeId := by simpa using List.find?_some hfw
      rw [ih (incrementStock s w user j.qty) (fun j0 hj0 => h j0 (List.mem_cons_of_mem _ hj0))]
      simp [incrementStock, hw, Ne.symm hj]

lemma incrementStockForInputs_spec (user : Nat) (wts : List WasteType) :
    ∀ (items : List ContainerInput) (s : ColmenaState),
      (items.map (fun i => i.typeId)).Nodup →
      (∀ i ∈ items, ∃ w, wts.find? (fun w0 => w0.id == i.typeId) = some w) →
      ∀ i ∈ items, (incrementStockForInputs s wts user items).stock user i.typeId =
        s.stock user i.typeId + (i.qty : Int) := by
  intro items
  induction items with
  | nil => intro s _ _ i hi; simp at hi
  | cons j rest ih =>
    intro s hnd hres i hi
    rw [List.map_cons, List.nodup_cons] at hnd
    obtain ⟨w, hw⟩ := hres j (List.mem_cons_self j rest)
    have hwid : w.id = j.typeId := by simpa using List.find?_some hw
    unfold incrementStockForInputs
    rw [hw]
    rcases List.mem_cons.mp hi with hij | hirest
    · subst hij
      have hrest_ne : ∀ j0 ∈ rest, j0.typeId ≠ i.typeId := by
        intro j0 hj0 hcontra
        exact hnd.1 (hcontra ▸ List.mem_map.mpr ⟨j0, hj0, rfl⟩)
      rw [incrementStockForInputs_untouched user user i.typeId wts rest _ hrest_ne]
      simp [incrementStock, hwid]
    · have hne : j.typeId ≠ i.typeId := by
        intro hcontra
        exact hnd.1 (hcontra ▸ List.mem_map.mpr ⟨i, hirest, rfl⟩)
      rw [ih (incrementStock s w user j.qty) hnd.2
        (fun i0 hi0 => hres i0 (List.mem_cons_of_mem _ hi0)) i hirest]
      simp [incrementStock, hwid, hne.symm, Ne.symm hne]

/-- Claim C8: `validateRegisterInput` raises a validation error if and
only if the input list contains two items with the same waste-type id or
some single item's quantity exceeds the configured per-request maximum
(MAX_CONTAINERS_QUANTITY_PER_REQUEST); otherwise it returns without
effect (it is a pure check). -/
theorem validateRegisterInput_error_iff (maxQty : Nat) (items : List ContainerInput) :
    (∃ e, validateRegisterInput maxQty items = .error e) ↔
      (¬ (items.map (fun i => i.typeId)).Nodup ∨ ∃ i ∈ items, maxQty < i.qty) := by
  have hiff := validateRegisterInput_ok_iff maxQty items
  constructor
  · rintro ⟨e, he⟩
    by_contra hcon
    push_neg at hcon
    have hok : validateRegisterInput maxQty items = .ok () :=
      hiff.mpr ⟨hcon.1, fun i hi => hcon.2 i hi⟩
    rw [he] at hok
    cases hok
  · intro h
    cases hval : validateRegisterInput maxQty items with
    | error e => exact ⟨e, rfl⟩
    | ok u =>
      cases u
      have := hiff.mp hval
      rcases h with hnd | ⟨i, hi, hqty⟩
      · exact absurd this.1 hnd
      · exact absurd (this.2 i hi) (by omega)

/-- Claim C9: calling `registerRecover` with an empty container list (the
default when the argument is omitted) succeeds: it returns a RECOVER
transaction addressed to the requester with an empty details list, appends
only that transaction to the ledger, creates no container and leaves every
stock counter unchanged. -/
theorem registerRecover_nil (s : ColmenaState) (user : Nat) :
    registerRecover s [] user =
      (.ok ({ id := s.nextId, type := some .RECOVER, fromU := none, toU := some user,
              number := s.seq, recyclingCenter := none, reason := none,
              relatedTo := none, expiredAt := none }, []),
       { s with seq := s.seq + 1, nextId := s.nextId + 1,
                transactions := s.transactions ++
                  [{ id := s.nextId, type := some .RECOVER, fromU := none, toU := some user,
                     number := s.seq, recyclingCenter := none, reason := none,
                     relatedTo := none, expiredAt := none }] }) := rfl

/-- Claim C10: a cloud function wrapped with `secure` throws
INVALID_SESSION_TOKEN when the request carries neither the master flag nor
an authenticated user (the callback is never consulted: the result is the
same for every callback); when either is present it invokes the callback
on the request and returns its result. -/
theorem secure_spec {π β : Type} (callback : FunctionRequest π → β)
    (request : FunctionRequest π) :
    (request.master = false ∧ request.user = none →
        secure callback request = .invalidSessionToken "User needs to be authenticated") ∧
    ((request.master = true ∨ request.user.isSome = true) →
        secure callback request = .ok (callback request)) := by
  constructor
  · rintro ⟨hm, hu⟩
    simp [secure, hm, hu]
  · rintro (hm | hu)
    · simp [secure, hm]
    · rcases Option.isSome_iff_exists.mp hu with ⟨a, ha⟩
      simp [secure, ha]

/-- Witness for C10 at concrete requests. -/
theorem secure_spec_witness :
    secure (fun r : FunctionRequest Nat => r.params + 1)
        { master := false, user := none, params := 3 } =
      .invalidSessionToken "User needs to be authenticated" ∧
    secure (fun r : FunctionRequest Nat => r.params + 1)
        { master := true, user := none, params := 3 } = .ok 4 :=
  ⟨(secure_spec _ _).1 ⟨rfl, rfl⟩, (secure_spec _ _).2 (Or.inl rfl)⟩

/-- Claim C2 (code bug evaluation): on a valid accept of request 10 by
recipient 2 over one pending container, the workflow transfers nothing:
the message send `.createTransactionDetail(...)` on the promise returned
by `StockService.moveStock` (source line 315, missing `.then`) throws, so
the workflow compensates (container back to TRANSFER_PENDING, request's
`expiredAt` cleared, accept transaction destroyed) and rethrows. -/
theorem registerTransferAccept_bug_eval :
    (registerTransferAccept statePending 10 2).1 =
        .error (.couldNotRegister .typeErrorNotAFunction) ∧
    (registerTransferAccept statePending 10 2).2.containers.map
        (fun c => (c.id, c.status)) = [(20, ContainerStatus.TRANSFER_PENDING)] ∧
    (registerTransferAccept statePending 10 2).2.transactions.map
        (fun t => (t.id, t.type, t.expiredAt)) =
      [(10, some TransactionType.TRANSFER_REQUEST, (none : Option Nat))] :=
  ⟨by decide, by decide, by decide⟩

/-- Claim C3 (code bug evaluation): a valid cancel of request 10 by its
sender 1 always fails -- the positional-argument bug (source lines
409-415) sends the request's `to` user object as the session token, the
row save rejects with INVALID_SESSION_TOKEN, and the workflow rethrows it
wrapped; nothing is persisted (transactions, details and containers are
unchanged -- only the sequence number was consumed), so the claimed
TRANSFER_CANCEL transaction never exists. -/
theorem registerTransferCancel_bug_eval :
    (registerTransferCancel statePending 10 1).1 =
        .error (.couldNotRegister .invalidSessionToken) ∧
    (registerTransferCancel statePending 10 1).2.transactions = statePending.transactions ∧
    (registerTransferCancel statePending 10 1).2.details = statePending.details ∧
    (registerTransferCancel statePending 10 1).2.containers = statePending.containers ∧
    (registerTransferCancel statePending 10 1).2.seq = statePending.seq + 1 :=
  ⟨by decide, by decide, by decide, by decide, by decide⟩

/-- Claim C1 (code bug evaluation): on a TRANSFER_REQUEST with no
TransactionDetail rows (exactly what `registerTransferRequest` over an
empty container list creates), a first reject succeeds, yet the stored
request still has `expiredAt` unset -- the success path only sets it in
memory and never saves the request, and with no details there is no
detail save to cascade it (the compensation paths do save the request
explicitly, lines 336, 382 and 448) -- so a second terminal operation on
the same request succeeds again instead of failing with the expired
validation error the claim requires. -/
theorem transfer_terminal_repeat_success_bug :
    sagaOk (registerTransferReject stateEmptyRequest 10 "no" 2) = true ∧
    (findTransaction (registerTransferReject stateEmptyRequest 10 "no" 2).2 10).map
        (fun t => t.expiredAt) = some none ∧
    sagaOk (registerTransferReject
        (registerTransferReject stateEmptyRequest 10 "no" 2).2 10 "again" 2) = true :=
  ⟨by decide, by decide, by decide⟩

/-- Claim C6 is false as stated: transporting two containers owned by the
same user 2 records the notification list `[2, 2]` -- the owner list sent
to the notifier is not deduplicated. -/
theorem registerTransport_duplicate_notifications :
    (registerTransport stateTwoOwned [20, 21] (some 5) 1).2.notifications =
        [(40, 1, [2, 2])] ∧ ¬ ([2, 2] : List Nat).Nodup :=
  ⟨by decide, by decide⟩

/-- Claim C4: a transfer request listing a container that is not in
RECOVERED status fails with the status validation error before the
transaction is created: no Transaction is persisted and no container is
changed (the whole state is returned untouched). -/
theorem registerTransferRequest_not_recovered (s : ColmenaState)
    (containersInput : List Nat) (toId user i : Nat) (c : Container)
    (hto : s.users.contains toId = true)
    (hexists : ∀ j ∈ containersInput, (findContainer s j).isSome)
    (hi : i ∈ containersInput)
    (hc : findContainer s i = some c)
    (hcstat : c.status ≠ .RECOVERED) :
    registerTransferRequest s containersInput (some toId) user =
      (.error (.couldNotRegister .invalidContainerStatus), s) := by
  obtain ⟨cs, hcs⟩ := findContainersByIds_ok_of_all s containersInput hexists
  have hmem : c ∈ cs := findContainersByIds_mem s containersInput cs hcs i hi c hc
  have hall : cs.all (fun c0 => c0.status == .RECOVERED) = false :=
    List.all_eq_false.mpr ⟨c, hmem, by simpa using hcstat⟩
  simp [registerTransferRequest, hto, hcs, hall]
  exact List.elem_iff.mp hto

/-- Witness for C4: requesting the transfer of the TRANSFER_PENDING
container 20 fails and leaves the state untouched. -/
theorem registerTransferRequest_not_recovered_witness :
    statePending.users.contains 2 = true ∧
    (∀ j ∈ [20], (findContainer statePending j).isSome) ∧
    20 ∈ [20] ∧
    findContainer statePending 20 = some pendingContainer ∧
    pendingContainer.status ≠ .RECOVERED ∧
    registerTransferRequest statePending [20] (some 2) 1 =
      (.error (.couldNotRegister .invalidContainerStatus), statePending) :=
  ⟨by decide, by decide, by decide, by decide, by decide,
    registerTransferRequest_not_recovered statePending [20] 2 1 20 pendingContainer
      (by decide) (by decide) (by decide) (by decide) (by decide)⟩

lemma registerTransport_unfold (s : ColmenaState) (input : List Nat) (rc user : Nat)
    (cs : List Container)
    (hrc : s.recyclingCenters.contains rc = true)
    (hload : findContainersByIds s input = .ok cs)
    (hall : cs.all (fun c => c.status == .RECOVERED || c.status == .TRANSFERRED) = true)
    (hct : canTransportAll s user cs = .ok ()) :
    registerTransport s input (some rc) user =
      (match transportDetails s cs rc user with
       | (.ok ds, s3) =>
         (.ok ((transportCreated s rc user).1, ds),
          { s3 with notifications := s3.notifications ++
              [((transportCreated s rc user).1.id, user,
                (cs.map (fun c => c.createdBy)).filter (fun u => u != user))] })
       | (.error e, s3) =>
         (.error (.couldNotRegister e),
          setContainersStatus
            (setContainersStatus
              (destroyTransactionInState s3 (transportCreated s rc user).1.id)
              ((cs.filter (fun c =>
                 ((cs.filter (fun c0 => c0.status == .RECOVERED)).map
                   (fun c0 => c0.id)).contains c.id)).map (fun c => c.id))
              .RECOVERED)
            ((cs.filter (fun c =>
               ((cs.filter (fun c0 => c0.status == .TRANSFERRED)).map
                 (fun c0 => c0.id)).contains c.id)).map (fun c => c.id))
            .TRANSFERRED)) := by
  simp only [registerTransport, transportDetails, transportCreated, transportAttrs,
    createTransaction, getValueForNextSequence, newTransaction, stateAfterCreate,
    hrc, hload, hall, hct, Bool.not_true, Bool.false_eq_true, if_false]

/-- Claim C6 (amended): on every successful transport the notifier is
handed exactly one entry: the transaction id, the requester, and the
per-container owner list with the requester filtered out.  As a set this
list is exactly the distinct owners of the transported containers other
than the requester, but it is not deduplicated (one entry per container,
see the counterexample above). -/
theorem registerTransport_notifies_owners (s : ColmenaState) (containersInput : List Nat)
    (rc user : Nat) (cs : List Container)
    (hload : findContainersByIds s containersInput = .ok cs)
    (hok : sagaOk (registerTransport s containersInput (some rc) user) = true) :
    (registerTransport s containersInput (some rc) user).2.notifications =
      s.notifications ++
        [(s.nextId, user, (cs.map (fun c => c.createdBy)).filter (fun u => u != user))] ∧
    ∀ u, u ∈ (cs.map (fun c => c.createdBy)).filter (fun u => u != user) ↔
      (u ≠ user ∧ ∃ c ∈ cs, c.createdBy = u) := by
  constructor
  · by_cases hrc : s.recyclingCenters.contains rc
    · by_cases hall :
        cs.all (fun c => c.status == .RECOVERED || c.status == .TRANSFERRED) = true
      · cases hct : canTransportAll s user cs with
        | error e =>
          exfalso
          simp only [registerTransport, hrc, hload, hall, hct, Bool.not_true,
            Bool.false_eq_true, if_false, sagaOk] at hok
        | ok u0 =>
          cases u0
          rw [registerTransport_unfold s containersInput rc user cs hrc hload hall hct] at hok ⊢
          cases hd : transportDetails s cs rc user with
          | mk fst s3 =>
            cases fst with
            | error e =>
              rw [hd] at hok
              simp [sagaOk] at hok
            | ok ds =>
              have hkeep : (transportDetails s cs rc user).2.notifications =
                  (setContainersStatus (transportCreated s rc user).2
                    (cs.map (fun c => c.id)) .IN_TRANSIT).notifications :=
                (createDetails_keeps _ cs _).2.2.2.1
              rw [hd] at hkeep
              have hkeep2 : s3.notifications =
                  (setContainersStatus (transportCreated s rc user).2
                    (cs.map (fun c => c.id)) .IN_TRANSIT).notifications := hkeep
              simp only [hkeep2, setContainersStatus, transportCreated, transportAttrs,
                newTransaction, stateAfterCreate]
      · exfalso
        have hallf : cs.all (fun c => c.status == .RECOVERED || c.status == .TRANSFERRED)
            = false := by
          revert hall
          cases cs.all (fun c => c.status == .RECOVERED || c.status == .TRANSFERRED) <;> simp
        simp only [registerTransport, hrc, hload, hallf, Bool.not_true, Bool.not_false,
          Bool.false_eq_true, if_false, if_true, sagaOk] at hok
    · exfalso
      have hrcf : s.recyclingCenters.contains rc = false := by
        revert hrc
        cases s.recyclingCenters.contains rc <;> simp
      simp only [registerTransport, hrcf, Bool.not_false, if_true, sagaOk] at hok
      exact absurd hok (by simp)
  · intro u
    constructor
    · intro hu
      have hm := List.mem_filter.mp hu
      rcases List.mem_map.mp hm.1 with ⟨c, hc, hcu⟩
      exact ⟨by simpa using hm.2, c, hc, hcu⟩
    · rintro ⟨hne, c, hc, hcu⟩
      exact List.mem_filter.mpr ⟨List.mem_map.mpr ⟨c, hc, hcu⟩, by simpa using hne⟩

lemma createContainersOfType_keeps (wt : WasteType) (st : ContainerStatus)
    (number user : Nat) :
    ∀ (qty : Nat) (s : ColmenaState),
      (createContainersOfType s wt qty st number user).2.transactions = s.transactions ∧
      (createContainersOfType s wt qty st number user).2.stock = s.stock := by
  intro qty
  induction qty with
  | zero => intro s; exact ⟨rfl, rfl⟩
  | succ n ih =>
    intro s
    simpa [createContainersOfType] using
      ih { s with nextId := s.nextId + 1,
                  containers := s.containers ++
                    [{ id := s.nextId, type := wt, status := st, createdBy := user,
                       batchNumber := number }] }

lemma createContainersForInputs_keeps (wts : List WasteType) (number user : Nat) :
    ∀ (input : List ContainerInput) (s : ColmenaState),
      (createContainersForInputs s wts number user input).2.transactions = s.transactions ∧
      (createContainersForInputs s wts number user input).2.stock = s.stock := by
  intro input
  induction input with
  | nil => intro s; exact ⟨rfl, rfl⟩
  | cons item rest ih =>
    intro s
    unfold createContainersForInputs
    cases hfw : wts.find? (fun w => w.id == item.typeId) with
    | none => exact ih s
    | some w =>
      have hcr := createContainersOfType_keeps w .RECOVERED number user item.qty s
      have hrest := ih (createContainersOfType s w item.qty .RECOVERED number user).2
      exact ⟨hrest.1.trans hcr.1, hrest.2.trans hcr.2⟩

lemma incrementStockForInputs_keeps (wts : List WasteType) (user : Nat) :
    ∀ (input : List ContainerInput) (s : ColmenaState),
      (incrementStockForInputs s wts user input).transactions = s.transactions := by
  intro input
  induction input with
  | nil => intro s; rfl
  | cons item rest ih =>
    intro s
    unfold incrementStockForInputs
    cases hfw : wts.find? (fun w => w.id == item.typeId) with
    | none => exact ih s
    | some w => exact (ih (incrementStock s w user item.qty)).trans rfl

lemma registerRecover_unfold (s : ColmenaState) (input : List ContainerInput) (user : Nat)
    (wts : List WasteType)
    (hval : validateRegisterInput s.maxContainersQuantityPerRequest input = .ok ())
    (hwts : getWasteTypesFromIds s (input.map (fun c => c.typeId)) = .ok wts) :
    registerRecover s input user =
      (match recoverDetails s wts user input with
       | (.ok ds, s3) =>
         (.ok ((recoverCreated s user).1, ds), incrementStockForInputs s3 wts user input)
       | (.error e, s3) =>
         (.error (.couldNotRegister e),
          { destroyTransactionInState s3 (recoverCreated s user).1.id with
              stock := fun u t =>
                if u == user then s.stock user t
                else (destroyTransactionInState s3 (recoverCreated s user).1.id).stock u t })) := by
  simp only [registerRecover, recoverDetails, recoverContainers, recoverCreated, recoverAttrs,
    createTransaction, getValueForNextSequence, newTransaction, stateAfterCreate, hval, hwts]

/-- Claim C7: every recover invocation that returns appends a single
transaction to the ledger whose sequence number differs from every
pre-existing transaction's number (uniqueness across the ledger), and
increments the requester's stock counter of every input waste type by
exactly the requested quantity. -/
theorem registerRecover_valid_effects (s : ColmenaState) (input : List ContainerInput)
    (user : Nat)
    (hWF : s.WF)
    (hok : sagaOk (registerRecover s input user) = true) :
    ∃ tx ds,
      (registerRecover s input user).1 = .ok (tx, ds) ∧
      (registerRecover s input user).2.transactions = s.transactions ++ [tx] ∧
      (∀ t ∈ s.transactions, t.number ≠ tx.number) ∧
      ∀ i ∈ input, (registerRecover s input user).2.stock user i.typeId =
        s.stock user i.typeId + (i.qty : Int) := by
  cases hval : validateRegisterInput s.maxContainersQuantityPerRequest input with
  | error e => simp [registerRecover, hval, sagaOk] at hok
  | ok u0 =>
    cases u0
    cases hwts : getWasteTypesFromIds s (input.map (fun c => c.typeId)) with
    | error e => simp [registerRecover, hval, hwts, sagaOk] at hok
    | ok wts =>
      rw [registerRecover_unfold s input user wts hval hwts] at hok ⊢
      cases hd : recoverDetails s wts user input with
      | mk fst s3 =>
        cases fst with
        | error e => simp [hd, sagaOk] at hok
        | ok ds =>
          refine ⟨(recoverCreated s user).1, ds, rfl, ?_, ?_, ?_⟩
          · have h1 := incrementStockForInputs_keeps wts user input s3
            have h2 : (recoverDetails s wts user input).2.transactions =
                (recoverContainers s wts user input).2.transactions :=
              (createDetails_keeps _ _ _).1
            rw [hd] at h2
            have h2s : s3.transactions = (recoverContainers s wts user input).2.transactions := h2
            have h3 := (createContainersForInputs_keeps wts
              (recoverCreated s user).1.number user input (recoverCreated s user).2).1
            have h4 : (recoverCreated s user).2.transactions =
                s.transactions ++ [(recoverCreated s user).1] := rfl
            simp only [h1, h2s]
            exact h3.trans h4
          · intro t ht
            have hnum : (recoverCreated s user).1.number = s.seq := rfl
            rw [hnum]
            exact fun hcon => absurd (hcon ▸ hWF.2.2.2.2 t ht) (lt_irrefl s.seq)
          · intro i hi
            have hnd : (input.map (fun i => i.typeId)).Nodup :=
              ((validateRegisterInput_ok_iff _ _).mp hval).1
            have hres : ∀ j ∈ input, ∃ w, wts.find? (fun w0 => w0.id == j.typeId) = some w := by
              intro j hj
              have hids := getWasteTypesFromIds_ids s _ wts hwts
              have hmem : j.typeId ∈ wts.map (fun w => w.id) := by
                rw [hids]
                exact List.mem_map.mpr ⟨j, hj, rfl⟩
              rcases List.mem_map.mp hmem with ⟨w, hw, hwid⟩
              have : (wts.find? (fun w0 => w0.id == j.typeId)).isSome :=
                List.find?_isSome.mpr ⟨w, hw, by simp [hwid]⟩
              rcases Option.isSome_iff_exists.mp this with ⟨w0, hw0⟩
              exact ⟨w0, hw0⟩
            have hspec := incrementStockForInputs_spec user wts input s3 hnd hres i hi
            rw [hspec]
            have h2 : (recoverDetails s wts user input).2.stock =
                (recoverContainers s wts user input).2.stock :=
              (createDetails_keeps _ _ _).2.2.1
            rw [hd] at h2
            have h3 := (createContainersForInputs_keeps wts
              (recoverCreated s user).1.number user input (recoverCreated s user).2).2
            have h4 : (recoverCreated s user).2.stock = s.stock := rfl
            rw [h2]
            simp only [recoverContainers] at *
            rw [h3, h4]

/-- Witness for the amended C6 at a concrete transport. -/
theorem registerTransport_notifies_owners_witness :
    findContainersByIds stateTwoOwned [20, 21] = .ok twoOwnedContainers ∧
    sagaOk (registerTransport stateTwoOwned [20, 21] (some 5) 1) = true ∧
    (registerTransport stateTwoOwned [20, 21] (some 5) 1).2.notifications =
      stateTwoOwned.notifications ++
        [(stateTwoOwned.nextId, 1,
          (twoOwnedContainers.map (fun c => c.createdBy)).filter (fun u => u != 1))] :=
  ⟨by decide, by decide,
    (registerTransport_notifies_owners stateTwoOwned [20, 21] 5 1 twoOwnedContainers
      (by decide) (by decide)).1⟩

/-- Witness for C7 at a concrete recover of two plastic containers. -/
theorem registerRecover_valid_effects_witness :
    statePending.WF ∧
    sagaOk (registerRecover statePending [{ typeId := 1, qty := 2 }] 1) = true ∧
    (∃ tx ds,
      (registerRecover statePending [{ typeId := 1, qty := 2 }] 1).1 = .ok (tx, ds) ∧
      (registerRecover statePending [{ typeId := 1, qty := 2 }] 1).2.transactions =
        statePending.transactions ++ [tx] ∧
      (∀ t ∈ statePending.transactions, t.number ≠ tx.number) ∧
      ∀ i ∈ [({ typeId := 1, qty := 2 } : ContainerInput)],
        (registerRecover statePending [{ typeId := 1, qty := 2 }] 1).2.stock 1 i.typeId =
          statePending.stock 1 i.typeId + (i.qty : Int)) :=
  ⟨by decide, by decide,
    registerRecover_valid_effects statePending [{ typeId := 1, qty := 2 }] 1
      (by decide) (by decide)⟩

lemma rollback_maps_restore (cs l : List Container)
    (hnd : (l.map (fun c => c.id)).Nodup)
    (hsound : ∀ c ∈ cs, l.find? (fun c0 => c0.id == c.id) = some c)
    (hstat : ∀ c ∈ cs, c.status = .RECOVERED ∨ c.status = .TRANSFERRED) :
    ((l.map (fun w =>
        if (cs.map (fun c => c.id)).contains w.id
        then { w with status := ContainerStatus.IN_TRANSIT } else w)).map (fun y =>
        if ((cs.filter (fun c =>
            ((cs.filter (fun c0 => c0.status == ContainerStatus.RECOVERED)).map
              (fun c0 => c0.id)).contains c.id)).map (fun c => c.id)).contains y.id
        then { y with status := ContainerStatus.RECOVERED } else y)).map (fun z =>
        if ((cs.filter (fun c =>
            ((cs.filter (fun c0 => c0.status == ContainerStatus.TRANSFERRED)).map
              (fun c0 => c0.id)).contains c.id)).map (fun c => c.id)).contains z.id
        then { z with status := ContainerStatus.TRANSFERRED } else z) = l := by
  have huniq : ∀ c ∈ cs, ∀ x ∈ l, x.id = c.id → x = c := by
    intro c hc x hx hid
    have h1 := hsound c hc
    have h2 := find?_container_of_mem_nodup l x hnd hx
    rw [hid] at h2
    rw [h2] at h1
    cases h1
    rfl
  rw [List.map_map, List.map_map]
  refine (List.map_congr_left ?_).trans (List.map_id l)
  intro x hx
  simp only [Function.comp_apply, id_eq]
  by_cases hxin : x.id ∈ cs.map (fun c => c.id)
  · rcases List.mem_map.mp hxin with ⟨c, hc, hcid⟩
    have hxc : x = c := huniq c hc x hx hcid.symm
    subst hxc
    rw [if_pos (List.elem_iff.mpr hxin)]
    rcases hstat x hc with hR | hT
    · have hxrec : x.id ∈ (cs.filter
          (fun c0 => c0.status == ContainerStatus.RECOVERED)).map (fun c0 => c0.id) :=
        List.mem_map.mpr ⟨x, List.mem_filter.mpr ⟨hc, by simp [hR]⟩, rfl⟩
      have hxrecL : x.id ∈ (cs.filter (fun c =>
          ((cs.filter (fun c0 => c0.status == ContainerStatus.RECOVERED)).map
            (fun c0 => c0.id)).contains c.id)).map (fun c => c.id) :=
        List.mem_map.mpr ⟨x, List.mem_filter.mpr ⟨hc, List.elem_iff.mpr hxrec⟩, rfl⟩
      rw [if_pos (List.elem_iff.mpr hxrecL)]
      rw [if_neg]
      · exact set_status_self x ContainerStatus.RECOVERED hR
      · intro hcontra
        rcases List.mem_map.mp (List.elem_iff.mp hcontra) with ⟨c1, hc1f, hc1id⟩
        have hc1cs := (List.mem_filter.mp hc1f).1
        have hc1x : c1 = x := (huniq c1 hc1cs x hx hc1id.symm).symm
        subst hc1x
        rcases List.mem_map.mp (List.elem_iff.mp (List.mem_filter.mp hc1f).2) with
          ⟨c2, hc2f, hc2id⟩
        have hc2cs := (List.mem_filter.mp hc2f).1
        have hc2x : c2 = c1 := (huniq c2 hc2cs c1 hx hc2id.symm).symm
        subst hc2x
        have hst2 := (List.mem_filter.mp hc2f).2
        rw [hR] at hst2
        simp at hst2
    · have hxtr : x.id ∈ (cs.filter
          (fun c0 => c0.status == ContainerStatus.TRANSFERRED)).map (fun c0 => c0.id) :=
        List.mem_map.mpr ⟨x, List.mem_filter.mpr ⟨hc, by simp [hT]⟩, rfl⟩
      have hxtrL : x.id ∈ (cs.filter (fun c =>
          ((cs.filter (fun c0 => c0.status == ContainerStatus.TRANSFERRED)).map
            (fun c0 => c0.id)).contains c.id)).map (fun c => c.id) :=
        List.mem_map.mpr ⟨x, List.mem_filter.mpr ⟨hc, List.elem_iff.mpr hxtr⟩, rfl⟩
      have hnotrec : ¬ (((cs.filter (fun c =>
          ((cs.filter (fun c0 => c0.status == ContainerStatus.RECOVERED)).map
            (fun c0 => c0.id)).contains c.id)).map (fun c => c.id)).contains x.id = true) := by
        intro hcontra
        rcases List.mem_map.mp (List.elem_iff.mp hcontra) with ⟨c1, hc1f, hc1id⟩
        have hc1cs := (List.mem_filter.mp hc1f).1
        have hc1x : c1 = x := (huniq c1 hc1cs x hx hc1id.symm).symm
        subst hc1x
        rcases List.mem_map.mp (List.elem_iff.mp (List.mem_filter.mp hc1f).2) with
          ⟨c2, hc2f, hc2id⟩
        have hc2cs := (List.mem_filter.mp hc2f).1
        have hc2x : c2 = c1 := (huniq c2 hc2cs c1 hx hc2id.symm).symm
        subst hc2x
        have hst2 := (List.mem_filter.mp hc2f).2
        rw [hT] at hst2
        simp at hst2
      rw [if_neg hnotrec, if_pos (List.elem_iff.mpr hxtrL)]
      exact set_status_self x ContainerStatus.TRANSFERRED hT
  · have hnot1 : ¬ ((cs.map (fun c => c.id)).contains x.id = true) :=
      fun hcontra => hxin (List.elem_iff.mp hcontra)
    have hnot2 : ¬ (((cs.filter (fun c =>
        ((cs.filter (fun c0 => c0.status == ContainerStatus.RECOVERED)).map
          (fun c0 => c0.id)).contains c.id)).map (fun c => c.id)).contains x.id = true) := by
      intro hcontra
      rcases List.mem_map.mp (List.elem_iff.mp hcontra) with ⟨c1, hc1f, hc1id⟩
      exact hxin (hc1id ▸ List.mem_map.mpr ⟨c1, (List.mem_filter.mp hc1f).1, rfl⟩)
    have hnot3 : ¬ (((cs.filter (fun c =>
        ((cs.filter (fun c0 => c0.status == ContainerStatus.TRANSFERRED)).map
          (fun c0 => c0.id)).contains c.id)).map (fun c => c.id)).contains x.id = true) := by
      intro hcontra
      rcases List.mem_map.mp (List.elem_iff.mp hcontra) with ⟨c1, hc1f, hc1id⟩
      exact hxin (hc1id ▸ List.mem_map.mpr ⟨c1, (List.mem_filter.mp hc1f).1, rfl⟩)
    rw [if_neg hnot1, if_neg hnot2, if_neg hnot3]

/-- Claim C5: when `registerTransport` fails during detail creation --
after its transaction was created and every container status flipped --
the compensation restores every affected container to its pre-call status
(RECOVERED or TRANSFERRED, per the partition recorded before mutation) and
destroys the transaction: the containers table and the transaction ledger
are exactly as before the call. -/
theorem registerTransport_compensation (s : ColmenaState) (containersInput : List Nat)
    (rc user : Nat) (cs : List Container)
    (hWF : s.WF)
    (hrc : s.recyclingCenters.contains rc = true)
    (hload : findContainersByIds s containersInput = .ok cs)
    (hstat : ∀ c ∈ cs, c.status = .RECOVERED ∨ c.status = .TRANSFERRED)
    (hauth : ∀ c ∈ cs, s.canTransport c.id user = true)
    (hfail : ∃ c ∈ cs, s.failDetailSave c.id = true) :
    (registerTransport s containersInput (some rc) user).1 =
        .error (.couldNotRegister (.detailNotSaved .saveFailed)) ∧
    (registerTransport s containersInput (some rc) user).2.containers = s.containers ∧
    (registerTransport s containersInput (some rc) user).2.transactions = s.transactions := by
  have hall : cs.all (fun c => c.status == .RECOVERED || c.status == .TRANSFERRED) = true :=
    List.all_eq_true.mpr (fun c hc => by rcases hstat c hc with h | h <;> simp [h])
  have hct := canTransportAll_ok s user cs hauth
  rw [registerTransport_unfold s containersInput rc user cs hrc hload hall hct]
  have hfailX : ∃ c ∈ cs, (setContainersStatus (transportCreated s rc user).2
      (cs.map (fun c => c.id)) .IN_TRANSIT).failDetailSave c.id = true := hfail
  have herr : (transportDetails s cs rc user).1 = .error (.detailNotSaved .saveFailed) :=
    createDetails_fail (transportCreated s rc user).1 cs _ hfailX
  cases hd : transportDetails s cs rc user with
  | mk fst s3 =>
    rw [hd] at herr
    have hfst : fst = .error (.detailNotSaved .saveFailed) := herr
    subst hfst
    have hkc : s3.containers = s.containers.map (fun w =>
        if (cs.map (fun c => c.id)).contains w.id
        then { w with status := ContainerStatus.IN_TRANSIT } else w) := by
      have h1 : (transportDetails s cs rc user).2.containers =
          (setContainersStatus (transportCreated s rc user).2
            (cs.map (fun c => c.id)) .IN_TRANSIT).containers :=
        (createDetails_keeps _ _ _).2.1
      rw [hd] at h1
      exact h1
    have hkt : s3.transactions = s.transactions ++ [(transportCreated s rc user).1] := by
      have h1 : (transportDetails s cs rc user).2.transactions =
          (setContainersStatus (transportCreated s rc user).2
            (cs.map (fun c => c.id)) .IN_TRANSIT).transactions :=
        (createDetails_keeps _ _ _).1
      rw [hd] at h1
      exact h1
    refine ⟨rfl, ?_, ?_⟩
    · show ((s3.containers.map (fun y =>
          if ((cs.filter (fun c =>
              ((cs.filter (fun c0 => c0.status == ContainerStatus.RECOVERED)).map
                (fun c0 => c0.id)).contains c.id)).map (fun c => c.id)).contains y.id
          then { y with status := ContainerStatus.RECOVERED } else y)).map (fun z =>
          if ((cs.filter (fun c =>
              ((cs.filter (fun c0 => c0.status == ContainerStatus.TRANSFERRED)).map
                (fun c0 => c0.id)).contains c.id)).map (fun c => c.id)).contains z.id
          then { z with status := ContainerStatus.TRANSFERRED } else z)) = s.containers
      rw [hkc]
      exact rollback_maps_restore cs s.containers hWF.2.1
        (findContainersByIds_sound s containersInput cs hload) hstat
    · show s3.transactions.filter
          (fun t => t.id != (transportCreated s rc user).1.id) = s.transactions
      rw [hkt, List.filter_append]
      have hb : (transportCreated s rc user).1.id = s.nextId := rfl
      rw [filter_bne_id_of_forall s.transactions (transportCreated s rc user).1.id
        (fun t ht => by rw [hb]; exact Nat.ne_of_lt (hWF.2.2.1 t ht))]
      simp

/-- Witness for C5 at a concrete failing transport over one RECOVERED and
one TRANSFERRED container. -/
theorem registerTransport_compensation_witness :
    stateTransportFail.WF ∧
    stateTransportFail.recyclingCenters.contains 5 = true ∧
    findContainersByIds stateTransportFail [20, 21] = .ok mixedContainers ∧
    (∀ c ∈ mixedContainers, c.status = .RECOVERED ∨ c.status = .TRANSFERRED) ∧
    (∀ c ∈ mixedContainers, stateTransportFail.canTransport c.id 1 = true) ∧
    (∃ c ∈ mixedContainers, stateTransportFail.failDetailSave c.id = true) ∧
    ((registerTransport stateTransportFail [20, 21] (some 5) 1).1 =
        .error (.couldNotRegister (.detailNotSaved .saveFailed)) ∧
      (registerTransport stateTransportFail [20, 21] (some 5) 1).2.containers =
        stateTransportFail.containers ∧
      (registerTransport stateTransportFail [20, 21] (some 5) 1).2.transactions =
        stateTransportFail.transactions) :=
  ⟨by decide, by decide, by decide, by decide, by decide, by decide,
    registerTransport_compensation stateTransportFail [20, 21] 5 1 mixedContainers
      (by decide) (by decide) (by decide) (by decide) (by decide) (by decide)⟩
